import Mathlib

/-!
Verification of the clipboard-sync application's cache core (src/app.py):
a single shared cache slot with TTL expiry and keyed retrieval.

The embedding is shallow. The shared container dict created by
`get_cache_container` becomes a structure with three optional fields;
`set_clipboard_data` and `get_clipboard_data` become state-passing
functions taking the current time (the source reads `time.time()`) as an
explicit rational argument; the one fallible step inside each try block —
the cache-resource access raising — becomes an explicit `fail` flag, with
the except branch's return value on the failing path. `verify_api_key`
takes the optional configured secret (a missing `API_KEY` entry raises
`KeyError` in Python) and whether the query parameters contain `action`,
and returns both its boolean and whether it called `st.error`.
-/

namespace ClipboardSync

/-- Stored payload: the source passes either a pasted text string or the
raw bytes of an uploaded file. -/
inductive Payload where
  | text (s : String)
  | bytes (b : List Nat)
deriving DecidableEq

/-- A payload is empty when its string or byte sequence has length zero
(distinct from the payload being absent, modelled by `none`). -/
def Payload.isEmpty : Payload → Bool
  | .text s => s.isEmpty
  | .bytes b => b.isEmpty

/-- Metadata dict (`type`, `filename`, `mime_type`, `original_size`). The
cache core stores it opaquely and never inspects it, so an association
list of string pairs models the dict. -/
abbrev Metadata := List (String × String)

/-- Fixed TTL, `CACHE_TTL_SECONDS = 300` (app.py line 11). -/
def CACHE_TTL_SECONDS : ℚ := 300

/-- The shared cache container dict with keys `data`, `metadata`,
`timestamp` (app.py line 52). -/
structure Container where
  data : Option Payload
  metadata : Option Metadata
  timestamp : Option ℚ
deriving DecidableEq

/-- Fresh container from `get_cache_container` (app.py lines 48-52): all
three keys hold `None`. -/
def get_cache_container : Container :=
  { data := none, metadata := none, timestamp := none }

/-- Embedding of `set_clipboard_data` (app.py lines 54-68). On the normal
path the three keys are assigned: `data`, `metadata` as given, and
`timestamp` set to the current time when `data is not None` and to `None`
otherwise; the function returns `True`. `fail` models the cache-resource
access raising inside the try block, before any assignment runs, in which
case the except branch returns `False`. -/
def set_clipboard_data (fail : Bool) (c : Container) (d : Option Payload)
    (m : Option Metadata) (now : ℚ) : Container × Bool :=
  if fail then (c, false)
  else ({ data := d, metadata := m,
          timestamp := if d.isSome then some now else none }, true)

/-- Embedding of `get_clipboard_data` (app.py lines 70-101), in
state-passing style: the result pair together with the container after the
call. When `timestamp` is `None` it returns `(None, None)`; when
`time.time() > timestamp + CACHE_TTL_SECONDS` it returns `(None, None)`;
otherwise it returns `(data, metadata)`. The assignments that would purge
the container (lines 86-88) are commented out in the source, so the
container is returned unchanged on every path; `fail` models the
cache-resource access raising, with the except branch returning
`(None, None)`. -/
def get_clipboard_data (fail : Bool) (c : Container) (now : ℚ) :
    (Option Payload × Option Metadata) × Container :=
  if fail then ((none, none), c)
  else
    match c.timestamp with
    | none => ((none, none), c)
    | some ts =>
        if now > ts + CACHE_TTL_SECONDS then ((none, none), c)
        else ((c.data, c.metadata), c)

/-- Embedding of `verify_api_key` (app.py lines 105-120). `correct_key`
models the optional `API_KEY` secret (a missing entry raises `KeyError`),
`has_action` models whether `action` is in `st.query_params`, `provided`
the possibly-`None` argument. First component: the returned boolean,
`bool(provided_key and provided_key == correct_key)` — false for `None`
and for the empty string (both falsy), otherwise the equality test. Second
component: whether `st.error` was called; on `KeyError` that happens only
when the query has no `action` parameter. -/
def verify_api_key (correct_key : Option String) (has_action : Bool)
    (provided : Option String) : Bool × Bool :=
  match correct_key with
  | some ck =>
      (match provided with
       | none => false
       | some p => !p.isEmpty && p == ck, false)
  | none => (false, !has_action)

/-- Embedding of the debug status section (app.py lines 364-380) evaluated
at one instant: it fetches, keeps the raw timestamp only when the fetched
data is not `None`, passes it through `if timestamp_utc_float:` (Python
truthiness: `None` and `0.0` are both falsy), and reports the item present
exactly when `time_left.total_seconds() >= 0`, where `time_left` is
`timestamp + CACHE_TTL_SECONDS - now`. -/
def status_present (c : Container) (now : ℚ) : Bool :=
  let fetched := (get_clipboard_data false c now).1
  let timestamp_utc_float : Option ℚ :=
    if fetched.1.isSome then c.timestamp else none
  match timestamp_utc_float with
  | none => false
  | some ts =>
      if ts = 0 then false
      else decide (0 ≤ ts + CACHE_TTL_SECONDS - now)

/-- Fetch reports the item present when the payload component of its
result is not `None` (the check the status section itself applies to the
fetched pair). -/
def fetch_present (c : Container) (now : ℚ) : Bool :=
  (get_clipboard_data false c now).1.1.isSome

/-- Container states reachable from the fresh container by any sequence of
store and fetch calls at arbitrary times and with arbitrary failure
outcomes; the clear button's handler is `set_clipboard_data(None, None)`,
so clear is included as a store. -/
inductive Reachable : Container → Prop where
  | init : Reachable get_cache_container
  | set (fail : Bool) (d : Option Payload) (m : Option Metadata) (now : ℚ)
      {c : Container} : Reachable c →
      Reachable (set_clipboard_data fail c d m now).1
  | get (fail : Bool) (now : ℚ) {c : Container} : Reachable c →
      Reachable (get_clipboard_data fail c now).2

/-- Helper: `get_clipboard_data` returns the container unchanged on every
path. -/
theorem get_clipboard_data_state (fail : Bool) (c : Container) (now : ℚ) :
    (get_clipboard_data fail c now).2 = c := by
  cases fail with
  | true => rfl
  | false =>
      cases hts : c.timestamp with
      | none => simp [get_clipboard_data, hts]
      | some ts =>
          by_cases h : now > ts + CACHE_TTL_SECONDS <;>
            simp [get_clipboard_data, hts, h]

/-- C1: for every non-empty payload P and metadata mapping M, store(P, M)
followed immediately by fetch(), with no intervening operation and less
than TTL elapsed, returns exactly (P, M). -/
theorem C1_store_then_fetch (c : Container) (P : Payload) (M : Metadata)
    (t now : ℚ) (hP : P.isEmpty = false)
    (h : now - t < CACHE_TTL_SECONDS) :
    (get_clipboard_data false
      (set_clipboard_data false c (some P) (some M) t).1 now).1 =
    (some P, some M) := by
  have hlt : ¬ now > t + CACHE_TTL_SECONDS := by push_neg; linarith
  simp [set_clipboard_data, get_clipboard_data, hlt]

/-- Witness for C1 at a concrete store-then-fetch: text payload stored at
time 0 and fetched at time 299. -/
theorem C1_store_then_fetch_witness :
    (Payload.text "hello").isEmpty = false ∧
    (299 : ℚ) - 0 < CACHE_TTL_SECONDS ∧
    (get_clipboard_data false
      (set_clipboard_data false get_cache_container
        (some (Payload.text "hello")) (some [("type", "text")]) 0).1
      299).1 =
    (some (Payload.text "hello"), some [("type", "text")]) :=
  ⟨rfl, by norm_num [CACHE_TTL_SECONDS],
    C1_store_then_fetch get_cache_container (Payload.text "hello")
      [("type", "text")] 0 299 rfl (by norm_num [CACHE_TTL_SECONDS])⟩

/-- C2: for every occupied slot with creation time ts and every ε > 0,
fetch at ts + TTL + ε returns empty and fetch at ts + TTL − ε returns the
stored item unchanged; the TTL is fixed at 300 seconds. -/
theorem C2_ttl_boundary (c : Container) (ts ε : ℚ)
    (hts : c.timestamp = some ts) (hocc : c.data.isSome = true)
    (hε : 0 < ε) :
    (get_clipboard_data false c (ts + CACHE_TTL_SECONDS + ε)).1 =
      (none, none) ∧
    (get_clipboard_data false c (ts + CACHE_TTL_SECONDS - ε)).1 =
      (c.data, c.metadata) ∧
    CACHE_TTL_SECONDS = 300 := by
  refine ⟨?_, ?_, rfl⟩
  · have h1 : ts + CACHE_TTL_SECONDS + ε > ts + CACHE_TTL_SECONDS := by
      linarith
    simp [get_clipboard_data, hts, h1]
  · have h2 : ¬ ts + CACHE_TTL_SECONDS - ε > ts + CACHE_TTL_SECONDS := by
      push_neg; linarith
    simp [get_clipboard_data, hts, h2]

/-- Witness for C2 at a concrete occupied container with creation time 10
and ε = 1. -/
theorem C2_ttl_boundary_witness :
    (Container.mk (some (Payload.text "hello")) (some [("type", "text")])
      (some 10)).timestamp = some 10 ∧
    (Container.mk (some (Payload.text "hello")) (some [("type", "text")])
      (some 10)).data.isSome = true ∧
    (0 : ℚ) < 1 ∧
    (get_clipboard_data false
      (Container.mk (some (Payload.text "hello")) (some [("type", "text")])
        (some 10)) (10 + CACHE_TTL_SECONDS + 1)).1 = (none, none) :=
  ⟨rfl, rfl, by norm_num,
    (C2_ttl_boundary
      (Container.mk (some (Payload.text "hello")) (some [("type", "text")])
        (some 10)) 10 1 rfl rfl (by norm_num)).1⟩

/-- C3 as stated is false: storing at time 0 yields a reachable container
whose timestamp is 0, which the status section's truthiness test
`if timestamp_utc_float:` treats as absent while fetch at the same instant
still returns the item. -/
theorem C3_counterexample :
    Reachable (set_clipboard_data false get_cache_container
      (some (Payload.text "x")) (some [("type", "text")]) 0).1 ∧
    fetch_present (set_clipboard_data false get_cache_container
      (some (Payload.text "x")) (some [("type", "text")]) 0).1 0 = true ∧
    status_present (set_clipboard_data false get_cache_container
      (some (Payload.text "x")) (some [("type", "text")]) 0).1 0 = false :=
  ⟨Reachable.set false (some (Payload.text "x")) (some [("type", "text")])
      0 Reachable.init,
    by
      have h : ¬ CACHE_TTL_SECONDS < 0 := by norm_num [CACHE_TTL_SECONDS]
      simp [fetch_present, get_clipboard_data, set_clipboard_data, h],
    by
      have h : ¬ CACHE_TTL_SECONDS < 0 := by norm_num [CACHE_TTL_SECONDS]
      simp [status_present, get_clipboard_data, set_clipboard_data, h]⟩

/-- C3 amended: at every container state whose stored timestamp is not
exactly 0 (the float 0.0 is falsy in Python, so the status section treats
a zero timestamp as absent) and at every instant, the status section's
presence test agrees exactly with fetch, including at the instant
now = created_at + TTL, where both code paths report the item present. -/
theorem C3_status_agrees_with_fetch (c : Container) (now : ℚ)
    (h : c.timestamp ≠ some 0) :
    status_present c now = fetch_present c now := by
  unfold status_present fetch_present
  cases hts : c.timestamp with
  | none => simp [get_clipboard_data, hts]
  | some ts =>
      have hts0 : ts ≠ 0 := by
        rintro rfl
        exact h hts
      by_cases hexp : now > ts + CACHE_TTL_SECONDS
      · simp [get_clipboard_data, hts, hexp]
      · cases hd : c.data with
        | none => simp [get_clipboard_data, hts, hexp, hd]
        | some d =>
            have hle : 0 ≤ ts + CACHE_TTL_SECONDS - now := by
              push_neg at hexp
              linarith
            simp [get_clipboard_data, hts, hexp, hd, hts0, hle]

/-- Witness for C3 amended at a concrete occupied container with
timestamp 1, evaluated exactly at the TTL boundary instant 301. -/
theorem C3_status_agrees_with_fetch_witness :
    (Container.mk (some (Payload.text "x")) (some [("type", "text")])
      (some 1)).timestamp ≠ some 0 ∧
    status_present
      (Container.mk (some (Payload.text "x")) (some [("type", "text")])
        (some 1)) 301 =
    fetch_present
      (Container.mk (some (Payload.text "x")) (some [("type", "text")])
        (some 1)) 301 :=
  ⟨by simp,
    C3_status_agrees_with_fetch
      (Container.mk (some (Payload.text "x")) (some [("type", "text")])
        (some 1)) 301 (by simp)⟩

/-- C4 as stated is false: store(none, M) with a non-none M leaves M in
the metadata field, whereas clear — the clear button's
set_clipboard_data(None, None) — sets the metadata field to none, so the
two resulting states differ. -/
theorem C4_counterexample :
    (set_clipboard_data false get_cache_container none
      (some [("type", "text")]) 0).1.metadata = some [("type", "text")] ∧
    (set_clipboard_data false get_cache_container none
      (some [("type", "text")]) 0).1 ≠
    (set_clipboard_data false get_cache_container none none 0).1 := by
  refine ⟨rfl, ?_⟩
  simp [set_clipboard_data]

/-- C4 amended: for every metadata argument M and prior state, store(none,
M) sets payload and created_at to none exactly as clear does, but writes M
into the metadata field rather than none; it coincides with clear exactly
when M is none, and the state it produces is observationally empty through
fetch at every instant. -/
theorem C4_store_none (c : Container) (M : Option Metadata) (now : ℚ) :
    (set_clipboard_data false c none M now).1.data = none ∧
    (set_clipboard_data false c none M now).1.timestamp = none ∧
    (set_clipboard_data false c none M now).1.metadata = M ∧
    ((set_clipboard_data false c none M now).1 =
        (set_clipboard_data false c none none now).1 ↔ M = none) ∧
    ∀ u fail, (get_clipboard_data fail
      (set_clipboard_data false c none M now).1 u).1 = (none, none) := by
  refine ⟨rfl, rfl, rfl, ?_, ?_⟩
  · constructor
    · intro hEq
      have := congrArg Container.metadata hEq
      simpa [set_clipboard_data] using this
    · rintro rfl
      rfl
  · intro u fail
    cases fail with
    | true => rfl
    | false => simp [set_clipboard_data, get_clipboard_data]

/-- Witness for C4 amended at a concrete store of a none payload with
non-none metadata over the fresh container. -/
theorem C4_store_none_witness :
    (set_clipboard_data false get_cache_container none
      (some [("type", "text")]) 3).1.metadata = some [("type", "text")] :=
  (C4_store_none get_cache_container (some [("type", "text")]) 3).2.2.1

/-- C5 as stated is false: from the fresh container, store(none, M) with a
non-none M reaches a state whose payload and created_at are none while its
metadata field is not. -/
theorem C5_counterexample :
    Reachable (set_clipboard_data false get_cache_container none
      (some [("type", "text")]) 0).1 ∧
    ¬ ((set_clipboard_data false get_cache_container none
        (some [("type", "text")]) 0).1.data = none ↔
       (set_clipboard_data false get_cache_container none
        (some [("type", "text")]) 0).1.metadata = none) :=
  ⟨Reachable.set false none (some [("type", "text")]) 0 Reachable.init,
    by simp [set_clipboard_data]⟩

/-- C5 amended: in every reachable state, payload is none iff created_at
is none; the metadata field is not tied to the other two (store(none, M)
leaves it set while the others are none). -/
theorem C5_data_iff_timestamp (c : Container) (h : Reachable c) :
    c.data = none ↔ c.timestamp = none := by
  induction h with
  | init => simp [get_cache_container]
  | set fail d m now _ ih =>
      cases fail with
      | true => simpa [set_clipboard_data] using ih
      | false => cases d <;> simp [set_clipboard_data]
  | get fail now _ ih =>
      rw [get_clipboard_data_state]
      exact ih

/-- Witness for C5 amended at the fresh container, a reachable state. -/
theorem C5_data_iff_timestamp_witness :
    get_cache_container.data = none ↔ get_cache_container.timestamp = none :=
  C5_data_iff_timestamp get_cache_container Reachable.init

/-- Helper: a string tests non-empty exactly when it differs from the
empty string. -/
theorem isEmpty_false_iff (s : String) : s.isEmpty = false ↔ s ≠ "" := by
  rw [← Bool.not_eq_true]
  exact not_congr (String.isEmpty_iff s)

/-- C6: with a configured expected key e, verify_key returns true iff the
provided key is non-empty and equal to e; the empty provided key always
yields false, even when e is itself the empty string. -/
theorem C6_verify_key (k e : String) (has_action : Bool) :
    ((verify_api_key (some e) has_action (some k)).1 = true ↔
      (k ≠ "" ∧ k = e)) ∧
    (verify_api_key (some e) has_action (some "")).1 = false := by
  constructor
  · simp [verify_api_key, isEmpty_false_iff]
  · simp [verify_api_key, isEmpty_false_iff]

/-- C7: with the expected key absent from configuration, verify_key is
total (the KeyError is caught) and returns false for every provided key,
and the configuration error is surfaced to the UI exactly when the query
parameters do not contain the action parameter. -/
theorem C7_missing_key (provided : Option String) (has_action : Bool) :
    (verify_api_key none has_action provided).1 = false ∧
    ((verify_api_key none has_action provided).2 = true ↔
      has_action = false) := by
  simp [verify_api_key]

/-- C8: a store that returns failure leaves the previous triple fully
intact — the fallible step inside the try block is the cache-resource
access, which precedes every field assignment. -/
theorem C8_failed_store_intact (fail : Bool) (c : Container)
    (d : Option Payload) (m : Option Metadata) (now : ℚ)
    (h : (set_clipboard_data fail c d m now).2 = false) :
    (set_clipboard_data fail c d m now).1 = c := by
  cases fail with
  | true => rfl
  | false => simp [set_clipboard_data] at h

/-- Witness for C8 at a concrete failing store over the fresh container. -/
theorem C8_failed_store_intact_witness :
    (set_clipboard_data true get_cache_container (some (Payload.text "p"))
      (some [("type", "text")]) 5).2 = false ∧
    (set_clipboard_data true get_cache_container (some (Payload.text "p"))
      (some [("type", "text")]) 5).1 = get_cache_container :=
  ⟨rfl, C8_failed_store_intact true get_cache_container
    (some (Payload.text "p")) (some [("type", "text")]) 5 rfl⟩

/-- C9: fetch never mutates the slot: on every path — empty, valid,
expired, and the failure path — the container is returned unchanged. -/
theorem C9_fetch_no_mutation (fail : Bool) (c : Container) (now : ℚ) :
    (get_clipboard_data fail c now).2 = c :=
  get_clipboard_data_state fail c now

/-- C10: observable emptiness is decided by the timestamp field alone:
every container whose timestamp is none fetches as (none, none) whatever
its data and metadata fields hold, and in particular the metadata left
behind by a store with a none payload is never observable through fetch. -/
theorem C10_timestamp_none_fetch_empty (c : Container) (now : ℚ)
    (h : c.timestamp = none) :
    (get_clipboard_data false c now).1 = (none, none) ∧
    ∀ c₀ : Container, ∀ m : Option Metadata, ∀ t u : ℚ,
      (get_clipboard_data false
        (set_clipboard_data false c₀ none m t).1 u).1 = (none, none) := by
  constructor
  · simp [get_clipboard_data, h]
  · intro c₀ m t u
    simp [get_clipboard_data, set_clipboard_data]

/-- Witness for C10 at a container holding stale data and metadata under a
none timestamp. -/
theorem C10_timestamp_none_fetch_empty_witness :
    (Container.mk (some (Payload.text "x")) (some [("k", "v")])
      none).timestamp = none ∧
    (get_clipboard_data false
      (Container.mk (some (Payload.text "x")) (some [("k", "v")]) none)
      7).1 = (none, none) :=
  ⟨rfl,
    (C10_timestamp_none_fetch_empty
      (Container.mk (some (Payload.text "x")) (some [("k", "v")]) none)
      7 rfl).1⟩

end ClipboardSync
